import Mathlib

/-!
Verification of the CommitDB Python driver (`drivers/python/commitdb/client.py`)
against its natural-language specification.

The driver is shallowly embedded: bytes are `Nat` (the newline delimiter is
byte 10), the parsed JSON values form an inductive `Json` type, the client
object's mutable fields (`_socket`, `_buffer`) form a `ClientState`, and the
socket's incoming traffic is a list of chunks, each chunk being the byte list
one `recv(4096)` call returns.  `json.loads` is an external library call and
is passed in as a parameter `parse : List Nat → Option Json` (`none` models a
`JSONDecodeError`).
-/

namespace CommitDB

/-- A parsed JSON value, as produced by `json.loads`.  An `obj`'s field list
models a Python dict (keys unique, insertion order preserved); numbers are
rationals since JSON numbers may be ints or floats. -/
inductive Json where
  | null : Json
  | bool (b : Bool) : Json
  | num (q : Rat) : Json
  | str (s : String) : Json
  | arr (elems : List Json) : Json
  | obj (fields : List (String × Json)) : Json

/-- Python dict lookup `d.get(key)` on an object's field list: `none` when
the key is absent (Python's `None` default). -/
def lookupField (fields : List (String × Json)) (key : String) : Option Json :=
  (fields.find? (fun f => f.1 == key)).map (fun f => f.2)

/-- Python truthiness of a JSON value, as tested by `if not response.get('success')`:
`None`, `False`, `0`, `""`, `[]` and `{}` are falsy. -/
def Json.truthy : Json → Bool
  | .null => false
  | .bool b => b
  | .num q => q != 0
  | .str s => s != ""
  | .arr [] => false
  | .arr (_ :: _) => true
  | .obj [] => false
  | .obj (_ :: _) => true

/-- Python `result_type == '<s>'`, where `result_type` is `response.get('type')`:
true exactly when the value is present and is the string `s`. -/
def typeIs (result_type : Option Json) (s : String) : Bool :=
  match result_type with
  | some (.str t) => t == s
  | _ => false

/-- A JSON string, read at the type the dataclass annotation expects
(`none` when the payload is outside the wire contract). -/
def asStr : Json → Option String
  | .str s => some s
  | _ => none

/-- A JSON array of strings (`result.columns`). -/
def asStrList : Json → Option (List String)
  | .arr elems => elems.mapM asStr
  | _ => none

/-- A JSON array of arrays of strings (`result.data`). -/
def asStrMatrix : Json → Option (List (List String))
  | .arr elems => elems.mapM asStrList
  | _ => none

/-- A JSON integer (the commit counters and `records_read`). -/
def asInt : Json → Option Int
  | .num q => if q.den = 1 then some q.num else none
  | _ => none

/-- A JSON number (`time_ms`). -/
def asRat : Json → Option Rat
  | .num q => some q
  | _ => none

/-- `QueryResult`: result of a SELECT query (client.py lines 16-33). -/
structure QueryResult where
  columns : List String
  data : List (List String)
  records_read : Int
  time_ms : Rat
deriving DecidableEq, Repr

/-- `QueryResult.__len__`: `len(self.data)`. -/
def QueryResult.len (q : QueryResult) : Nat :=
  q.data.length

/-- `QueryResult.__getitem__(index)`: `dict(zip(self.columns, self.data[index]))`.
The row dictionary is modelled as the ordered association list
`columns.zip row` (column order preserved; `zip` stops at the shorter list,
as Python's does).  `none` models the `IndexError` on an out-of-range index. -/
def QueryResult.getItem (q : QueryResult) (index : Nat) : Option (List (String × String)) :=
  (q.data.get? index).map (fun row => q.columns.zip row)

/-- `QueryResult.__iter__`: yields `dict(zip(self.columns, row))` for each row
of `self.data`, in order.  `__iter__` is a generator method, so each call
produces the whole sequence afresh; the sequence it yields is this list. -/
def QueryResult.iterRows (q : QueryResult) : List (List (String × String)) :=
  q.data.map (fun row => q.columns.zip row)

/-- `CommitResult`: result of a mutation (client.py lines 36-52), with the
dataclass defaults. -/
structure CommitResult where
  databases_created : Int := 0
  databases_deleted : Int := 0
  tables_created : Int := 0
  tables_deleted : Int := 0
  records_written : Int := 0
  records_deleted : Int := 0
  time_ms : Rat := 0
deriving DecidableEq, Repr

/-- `CommitResult.affected_rows` property. -/
def CommitResult.affected_rows (c : CommitResult) : Int :=
  c.databases_created + c.databases_deleted +
    c.tables_created + c.tables_deleted +
    c.records_written + c.records_deleted

/-- The distinct `CommitDBError` raises of the driver, identified by the
distinct message each raise site constructs (client.py lines 113, 122, 132, 147). -/
inductive ClientError where
  /-- "Not connected. Call connect() first." -/
  | notConnected : ClientError
  /-- "Connection closed by server" -/
  | connectionClosed : ClientError
  /-- "Invalid response from server: ..." (a `json.JSONDecodeError` was caught) -/
  | invalidResponse : ClientError
  /-- `response.get('error', 'Unknown error')`, the server's error value verbatim -/
  | serverError (err : Json) : ClientError

/-- The mutable state of a `CommitDB` object: `_socket` (present or `None`)
and `_buffer` (client.py lines 74-77).  These are the only fields `__init__`
creates. -/
structure ClientState where
  socket : Bool
  buffer : List Nat
deriving DecidableEq, Repr

/-- `CommitDB.__init__`: starts disconnected with an empty buffer. -/
def init : ClientState :=
  { socket := false, buffer := [] }

/-- `CommitDB.connect` (client.py lines 79-92): unconditionally creates a new
socket and connects it, replacing whatever `_socket` held before, without
inspecting whether a socket is already present.  Network-level failures are
external to the client; the `Except` result records that the client's own code
raises no state-dependent error here. -/
def connect (st : ClientState) : Except ClientError ClientState :=
  .ok { st with socket := true }

/-- `CommitDB.close` (client.py lines 94-102): best-effort `quit` send
(failures swallowed), then the socket is closed and `_socket` set to `None`.
`_buffer` is not touched. -/
def close (st : ClientState) : ClientState :=
  { st with socket := false }

/-- Outcome of the read loop of `CommitDB._send` (client.py lines 118-126). -/
inductive LineOutcome where
  /-- A newline was found: `line, buffer = buffer.split(b'\n', 1)`;
  `buf` is the remainder kept for the next call, `rest` the unread chunks. -/
  | line (l : List Nat) (buf : List Nat) (rest : List (List Nat)) : LineOutcome
  /-- `recv` returned an empty chunk before a newline arrived. -/
  | closed (buf : List Nat) (rest : List (List Nat)) : LineOutcome
  /-- The chunk stream is exhausted with no newline: the real socket would
  block (or hit its read timeout). -/
  | blocked (buf : List Nat) : LineOutcome
deriving DecidableEq, Repr

/-- The read loop of `_send`: `while b'\n' not in self._buffer:` receive a
chunk, raise on an empty one, else append it; then split at the first
newline. -/
def readLine : List Nat → List (List Nat) → LineOutcome
  | buffer, chunks =>
    if 10 ∈ buffer then
      .line (buffer.takeWhile (fun b => b != 10)) ((buffer.dropWhile (fun b => b != 10)).tail) chunks
    else
      match chunks with
      | [] => .blocked buffer
      | c :: cs => if c = [] then .closed buffer cs else readLine (buffer ++ c) cs

/-- A successfully decoded result: `execute` returns a `QueryResult` or a
`CommitResult`. -/
inductive ExecResult where
  | query (q : QueryResult) : ExecResult
  | commit (c : CommitResult) : ExecResult
deriving DecidableEq, Repr

/-- The response-interpretation phase of `CommitDB.execute`
(client.py lines 146-171), applied to the parsed JSON value.
`none` models a payload outside the wire contract, where the dynamically
typed Python code would raise a non-client exception (e.g. `AttributeError`
on a non-dict) or construct a result object violating its own field
annotations; on such payloads no `CommitDBError` and no well-typed result is
produced. -/
def interpret (response : Json) : Option (Except ClientError ExecResult) :=
  match response with
  | .obj fields =>
    if ((lookupField fields "success").getD .null).truthy = false then
      some (.error (.serverError ((lookupField fields "error").getD (.str "Unknown error"))))
    else
      let result_type := lookupField fields "type"
      let result_data := (lookupField fields "result").getD (.obj [])
      if typeIs result_type "query" then
        match result_data with
        | .obj rf =>
          match asStrList ((lookupField rf "columns").getD (.arr [])),
              asStrMatrix ((lookupField rf "data").getD (.arr [])),
              asInt ((lookupField rf "records_read").getD (.num 0)),
              asRat ((lookupField rf "time_ms").getD (.num 0)) with
          | some cols, some data, some rr, some tm =>
            some (.ok (.query ⟨cols, data, rr, tm⟩))
          | _, _, _, _ => none
        | _ => none
      else if typeIs result_type "commit" then
        match result_data with
        | .obj rf =>
          match asInt ((lookupField rf "databases_created").getD (.num 0)),
              asInt ((lookupField rf "databases_deleted").getD (.num 0)),
              asInt ((lookupField rf "tables_created").getD (.num 0)),
              asInt ((lookupField rf "tables_deleted").getD (.num 0)),
              asInt ((lookupField rf "records_written").getD (.num 0)),
              asInt ((lookupField rf "records_deleted").getD (.num 0)),
              asRat ((lookupField rf "time_ms").getD (.num 0)) with
          | some dc, some dd, some tc, some td, some rw, some rd, some tm =>
            some (.ok (.commit ⟨dc, dd, tc, td, rw, rd, tm⟩))
          | _, _, _, _, _, _, _ => none
        | _ => none
      else
        -- Unknown type, return empty commit result
        some (.ok (.commit {}))
  | _ => none

/-- Outcome of one `CommitDB.execute` call.  Every constructor carries
`sent`, the list of byte strings written to the socket during the call
(empty when the not-connected guard fired before any I/O). -/
inductive ExecOutcome where
  | ok (r : ExecResult) (st : ClientState) (rest : List (List Nat)) (sent : List (List Nat)) : ExecOutcome
  | err (e : ClientError) (st : ClientState) (rest : List (List Nat)) (sent : List (List Nat)) : ExecOutcome
  | blocked (sent : List (List Nat)) : ExecOutcome
  | illTyped (sent : List (List Nat)) : ExecOutcome

/-- The bytes `execute` sent, regardless of outcome. -/
def ExecOutcome.sent : ExecOutcome → List (List Nat)
  | .ok _ _ _ s => s
  | .err _ _ _ s => s
  | .blocked s => s
  | .illTyped s => s

/-- `CommitDB.execute` (client.py lines 110-171): the not-connected guard,
then `send((query + '\n').encode)`, the buffered read loop, `json.loads`
(the `parse` parameter), and response interpretation. -/
def execute (parse : List Nat → Option Json) (st : ClientState) (query : List Nat)
    (chunks : List (List Nat)) : ExecOutcome :=
  if st.socket = false then
    .err .notConnected st chunks []
  else
    let sent := [query ++ [10]]
    match readLine st.buffer chunks with
    | .blocked _ => .blocked sent
    | .closed buf rest => .err .connectionClosed { st with buffer := buf } rest sent
    | .line l buf rest =>
      match parse l with
      | none => .err .invalidResponse { st with buffer := buf } rest sent
      | some j =>
        match interpret j with
        | none => .illTyped sent
        | some (.error e) => .err e { st with buffer := buf } rest sent
        | some (.ok r) => .ok r { st with buffer := buf } rest sent

/-- The query payload exactly as the `result_type == 'query'` branch of
`execute` decodes it from the envelope: `result.columns` and `result.data`
(with their Python defaults `[]`), before any `QueryResult` is built.  Used
to compare the constructed result against the envelope it came from. -/
def envQueryPayload (response : Json) : Option (List String × List (List String)) :=
  match response with
  | .obj fields =>
    match (lookupField fields "result").getD (.obj []) with
    | .obj rf =>
      match asStrList ((lookupField rf "columns").getD (.arr [])),
          asStrMatrix ((lookupField rf "data").getD (.arr [])) with
      | some cols, some data => some (cols, data)
      | _, _ => none
    | _ => none
  | _ => none

/-- UTF-8 bytes of the command `MERGE a WITH MANUAL RESOLUTION`. -/
def manualMergeA : List Nat :=
  [77, 69, 82, 71, 69, 32, 97, 32, 87, 73, 84, 72, 32,
   77, 65, 78, 85, 65, 76, 32, 82, 69, 83, 79, 76, 85, 84, 73, 79, 78]

/-- UTF-8 bytes of the command `MERGE b WITH MANUAL RESOLUTION`. -/
def manualMergeB : List Nat :=
  [77, 69, 82, 71, 69, 32, 98, 32, 87, 73, 84, 72, 32,
   77, 65, 78, 85, 65, 76, 32, 82, 69, 83, 79, 76, 85, 84, 73, 79, 78]

/-- A server stub for concrete runs: every response line parses to the
envelope `{"success": true, "type": "commit"}`. -/
def mergeParse : List Nat → Option Json :=
  fun _ => some (.obj [("success", .bool true), ("type", .str "commit")])

/-! ### Equation lemmas for the read loop -/

/-- When the buffer already holds a newline, the loop body is skipped and the
buffer is split at the first newline; no chunk is consumed. -/
theorem readLine_found (buffer : List Nat) (chunks : List (List Nat)) (hb : 10 ∈ buffer) :
    readLine buffer chunks =
      .line (buffer.takeWhile (fun b => b != 10))
        ((buffer.dropWhile (fun b => b != 10)).tail) chunks := by
  rw [readLine.eq_def]
  simp [hb]

/-- Without a newline in the buffer, one nonempty chunk is received and
appended. -/
theorem readLine_step (buffer c : List Nat) (cs : List (List Nat))
    (hb : 10 ∉ buffer) (hc : c ≠ []) :
    readLine buffer (c :: cs) = readLine (buffer ++ c) cs := by
  rw [readLine.eq_def]
  simp [hb, hc]

/-- Without a newline in the buffer, an empty chunk means the peer closed. -/
theorem readLine_closed_eq (buffer : List Nat) (cs : List (List Nat)) (hb : 10 ∉ buffer) :
    readLine buffer ([] :: cs) = .closed buffer cs := by
  rw [readLine.eq_def]
  simp [hb]

/-- Without a newline and no pending chunk, the real socket blocks. -/
theorem readLine_blocked_eq (buffer : List Nat) (hb : 10 ∉ buffer) :
    readLine buffer [] = .blocked buffer := by
  rw [readLine.eq_def]
  simp [hb]

/-- A buffer containing a newline is its newline-free `takeWhile` prefix,
then the first newline, then the tail of its `dropWhile`. -/
theorem buffer_split_at_newline (buffer : List Nat) (hb : 10 ∈ buffer) :
    buffer = buffer.takeWhile (fun b => b != 10) ++
      10 :: (buffer.dropWhile (fun b => b != 10)).tail := by
  induction buffer with
  | nil => cases hb
  | cons a t ih =>
    by_cases ha : a = 10
    · subst ha
      simp [List.takeWhile_cons, List.dropWhile_cons]
    · have hp : (a != 10) = true := by simp [ha]
      have ht : 10 ∈ t := by
        rcases List.mem_cons.mp hb with h1 | h1
        · exact absurd h1.symm ha
        · exact h1
      simp only [List.takeWhile_cons, List.dropWhile_cons, hp, if_true]
      rw [List.cons_append]
      exact congrArg (List.cons a) (ih ht)

/-- No byte of the `takeWhile` prefix is a newline. -/
theorem newline_not_mem_takeWhile (buffer : List Nat) :
    10 ∉ buffer.takeWhile (fun b => b != 10) := by
  intro hmem
  have := List.mem_takeWhile_imp hmem
  simp at this

/-- C1: every read accumulates received chunks into the persistent buffer
until a newline byte is present, then splits exactly once at the first
newline of the accumulated bytes: the returned line `l` contains no newline
and the accumulated bytes are exactly `l ++ [10] ++ r` for some consumed
prefix of the chunk stream, the remainder staying for later calls; `execute`
decodes exactly `l` as the single response envelope and keeps exactly `r` in
the client's buffer. -/
theorem send_accumulates_and_splits_once
    (parse : List Nat → Option Json) (st : ClientState) (query l r : List Nat)
    (chunks cs : List (List Nat))
    (hsock : st.socket = true)
    (h : readLine st.buffer chunks = .line l r cs) :
    10 ∉ l ∧
    (∃ k, k ≤ chunks.length ∧
      st.buffer ++ (chunks.take k).flatten = l ++ 10 :: r ∧ cs = chunks.drop k) ∧
    (∀ j res, parse l = some j → interpret j = some (.ok res) →
      execute parse st query chunks = .ok res { st with buffer := r } cs [query ++ [10]]) := by
  have main : ∀ (chunks' : List (List Nat)) (buffer l' r' : List Nat) (cs' : List (List Nat)),
      readLine buffer chunks' = .line l' r' cs' →
      10 ∉ l' ∧ ∃ k, k ≤ chunks'.length ∧
        buffer ++ (chunks'.take k).flatten = l' ++ 10 :: r' ∧ cs' = chunks'.drop k := by
    intro chunks'
    induction chunks' with
    | nil =>
      intro buffer l' r' cs' hline
      by_cases hb : 10 ∈ buffer
      · rw [readLine_found buffer [] hb] at hline
        injection hline with h1 h2 h3
        subst h1; subst h2; subst h3
        refine ⟨newline_not_mem_takeWhile buffer, 0, by simp, ?_, by simp⟩
        simpa using buffer_split_at_newline buffer hb
      · rw [readLine_blocked_eq buffer hb] at hline
        cases hline
    | cons c cs'' ih =>
      intro buffer l' r' cs' hline
      by_cases hb : 10 ∈ buffer
      · rw [readLine_found buffer (c :: cs'') hb] at hline
        injection hline with h1 h2 h3
        subst h1; subst h2; subst h3
        refine ⟨newline_not_mem_takeWhile buffer, 0, by simp, ?_, by simp⟩
        simpa using buffer_split_at_newline buffer hb
      · by_cases hc : c = []
        · subst hc
          rw [readLine_closed_eq buffer cs'' hb] at hline
          cases hline
        · rw [readLine_step buffer c cs'' hb hc] at hline
          obtain ⟨hnl, k, hk, hacc, hdrop⟩ := ih (buffer ++ c) l' r' cs' hline
          refine ⟨hnl, k + 1, by simpa using Nat.succ_le_succ hk, ?_, by simpa using hdrop⟩
          simpa [List.append_assoc] using hacc
  obtain ⟨hnl, k, hk, hacc, hdrop⟩ := main chunks st.buffer l r cs h
  refine ⟨hnl, ⟨k, hk, hacc, hdrop⟩, ?_⟩
  intro j res hparse hinterp
  rw [execute]
  simp [hsock, h, hparse, hinterp]

/-- Witness for C1: the delimiter only arrives in the third chunk
(`"hi\n"` split as `"h"`, `"i"`, `"\n" ++ trailing byte `120`); the envelope
is the bytes before the newline and byte `120` stays buffered. -/
theorem send_accumulates_and_splits_once_witness :
    10 ∉ [104, 105] ∧
    (∃ k, k ≤ ([[104], [105], [10, 120]] : List (List Nat)).length ∧
      ([] : List Nat) ++ (([[104], [105], [10, 120]] : List (List Nat)).take k).flatten =
        [104, 105] ++ 10 :: [120] ∧
      ([] : List (List Nat)) = ([[104], [105], [10, 120]] : List (List Nat)).drop k) ∧
    (∀ j res, (fun l => if l = [104, 105] then some (Json.obj [("success", Json.bool true)]) else none) [104, 105] = some j →
      interpret j = some (.ok res) →
      execute (fun l => if l = [104, 105] then some (Json.obj [("success", Json.bool true)]) else none)
          ⟨true, []⟩ [113] [[104], [105], [10, 120]] =
        .ok res ⟨true, [120]⟩ [] [[113] ++ [10]]) :=
  send_accumulates_and_splits_once
    (fun l => if l = [104, 105] then some (Json.obj [("success", Json.bool true)]) else none)
    ⟨true, []⟩ [113] [104, 105] [120] [[104], [105], [10, 120]] [] rfl (by decide)

/-- C4 (counterexample): the `CommitResult` constructor does not validate its
counters, so a negative counter makes `affected_rows` negative: the claim's
"always non-negative" fails on `databases_created = -1`. -/
theorem affected_rows_negative_counterexample :
    ({ databases_created := -1 } : CommitResult).affected_rows = -1 ∧
    ¬ (0 ≤ ({ databases_created := -1 } : CommitResult).affected_rows) := by
  decide

/-- C4 (amended): for every `CommitResult`, `affected_rows` equals the sum of
the six counters — in particular it is `0` for the all-defaulted value — and
the sum is non-negative whenever each counter is non-negative; the code does
not itself enforce non-negativity of the counters. -/
theorem affected_rows_is_counter_sum (c : CommitResult) :
    c.affected_rows = c.databases_created + c.databases_deleted + c.tables_created +
      c.tables_deleted + c.records_written + c.records_deleted ∧
    (({} : CommitResult).affected_rows = 0) ∧
    (0 ≤ c.databases_created → 0 ≤ c.databases_deleted → 0 ≤ c.tables_created →
      0 ≤ c.tables_deleted → 0 ≤ c.records_written → 0 ≤ c.records_deleted →
      0 ≤ c.affected_rows) := by
  refine ⟨rfl, rfl, ?_⟩
  intro h1 h2 h3 h4 h5 h6
  have := add_nonneg (add_nonneg (add_nonneg (add_nonneg (add_nonneg h1 h2) h3) h4) h5) h6
  simpa [CommitResult.affected_rows] using this

/-- Witness for C4's amended theorem at the all-defaulted `CommitResult`. -/
theorem affected_rows_is_counter_sum_witness :
    0 ≤ ({} : CommitResult).affected_rows :=
  (affected_rows_is_counter_sum {}).2.2 (by decide) (by decide) (by decide)
    (by decide) (by decide) (by decide)

/-- C6: `execute` on a never-opened client (`init`) or on a closed one
(`close st`) fails with the not-connected `CommitDBError` before any I/O:
nothing is sent (`sent = []`), no chunk is consumed (`rest = chunks`), and
the state is unchanged. -/
theorem execute_requires_connection
    (parse : List Nat → Option Json) (st : ClientState) (query : List Nat)
    (chunks : List (List Nat)) :
    execute parse init query chunks = .err .notConnected init chunks [] ∧
    execute parse (close st) query chunks = .err .notConnected (close st) chunks [] ∧
    (execute parse init query chunks).sent = [] ∧
    (execute parse (close st) query chunks).sent = [] :=
  ⟨rfl, rfl, rfl, rfl⟩

/-- C7: indexed access and iteration agree — `result[i]` equals the `i`-th
element of the iteration sequence, both being `dict(zip(columns, data[i]))`
in column order — and the iteration sequence is a pure value of the result,
so iterating twice yields the identical sequence. -/
theorem getitem_iter_agree (q : QueryResult) (i : Nat) :
    q.iterRows.get? i = q.getItem i ∧
    q.getItem i = (q.data.get? i).map (fun row => q.columns.zip row) ∧
    q.iterRows = q.iterRows := by
  refine ⟨?_, rfl, rfl⟩
  simp [QueryResult.iterRows, QueryResult.getItem]

/-- C8: a successful envelope whose `type` is absent or neither `"query"`
nor `"commit"` makes `execute` return the all-defaulted `CommitResult`
(six zero counters, `time_ms = 0`) as a normal success, not an error. -/
theorem unknown_type_returns_empty_commit
    (parse : List Nat → Option Json) (st : ClientState) (query l r : List Nat)
    (chunks cs : List (List Nat)) (fields : List (String × Json))
    (hsock : st.socket = true)
    (hline : readLine st.buffer chunks = .line l r cs)
    (hparse : parse l = some (.obj fields))
    (hsucc : ((lookupField fields "success").getD .null).truthy = true)
    (hq : typeIs (lookupField fields "type") "query" = false)
    (hc : typeIs (lookupField fields "type") "commit" = false) :
    execute parse st query chunks =
      .ok (.commit ⟨0, 0, 0, 0, 0, 0, 0⟩) { st with buffer := r } cs [query ++ [10]] := by
  have hint : interpret (.obj fields) = some (.ok (.commit ⟨0, 0, 0, 0, 0, 0, 0⟩)) := by
    rw [interpret]
    simp [hsucc, hq, hc]
  rw [execute]
  simp [hsock, hline, hparse, hint]

/-- Witness for C8: the envelope `{"success": true}` (no `type` field at all)
yields the zero `CommitResult`. -/
theorem unknown_type_returns_empty_commit_witness :
    execute (fun _ => some (.obj [("success", .bool true)])) ⟨true, []⟩ [113] [[10]] =
      .ok (.commit ⟨0, 0, 0, 0, 0, 0, 0⟩) ⟨true, []⟩ [] [[113] ++ [10]] :=
  unknown_type_returns_empty_commit (fun _ => some (.obj [("success", .bool true)]))
    ⟨true, []⟩ [113] [] [] [[10]] [] [("success", .bool true)]
    rfl (by decide) rfl rfl rfl rfl

/-- C9 (counterexample): `connect` on an already-open client does not fail —
it returns success, so the claimed idempotent-failure is absent from the
code. -/
theorem connect_already_open_succeeds :
    (⟨true, []⟩ : ClientState).socket = true ∧
    connect ⟨true, []⟩ = .ok ⟨true, []⟩ ∧
    (connect ⟨true, []⟩).isOk = true :=
  ⟨rfl, rfl, rfl⟩

/-- C9 (amended): `connect` never inspects whether the client is already
open: from any state it succeeds on the client side, installing a freshly
created socket (the previous socket object, if any, is abandoned without
being closed) and leaving the read buffer untouched. -/
theorem connect_replaces_socket (st : ClientState) :
    connect st = .ok { st with socket := true } :=
  rfl

/-- C2 (counterexample): the client holds no merge state — after a first
`MERGE a WITH MANUAL RESOLUTION` succeeds (leaving the client in state
`⟨true, []⟩`), a second `MERGE b WITH MANUAL RESOLUTION` on that very state
is transmitted to the server (`sent ≠ []`) and completes without any local
client error, contradicting the claimed local `merge_pending` guard. -/
theorem second_manual_merge_not_refused :
    execute mergeParse ⟨true, []⟩ manualMergeA [[10]] =
      .ok (.commit ⟨0, 0, 0, 0, 0, 0, 0⟩) ⟨true, []⟩ [] [manualMergeA ++ [10]] ∧
    execute mergeParse ⟨true, []⟩ manualMergeB [[10]] =
      .ok (.commit ⟨0, 0, 0, 0, 0, 0, 0⟩) ⟨true, []⟩ [] [manualMergeB ++ [10]] ∧
    (execute mergeParse ⟨true, []⟩ manualMergeB [[10]]).sent ≠ [] := by
  refine ⟨rfl, rfl, ?_⟩
  have hs : (execute mergeParse ⟨true, []⟩ manualMergeB [[10]]).sent =
      [manualMergeB ++ [10]] := rfl
  rw [hs]
  simp

/-- C2 (amended): the client tracks no `merge_pending` flag — its whole
state is the socket handle and the read buffer — and `execute`, whenever the
client is connected, transmits every command verbatim (as `command ++ "\n"`),
a second manual merge included, deferring entirely to the server's own
rejection; no local merge-sequencing error exists in the driver. -/
theorem execute_always_sends_when_connected
    (parse : List Nat → Option Json) (st : ClientState) (query : List Nat)
    (chunks : List (List Nat)) (hsock : st.socket = true) :
    (execute parse st query chunks).sent = [query ++ [10]] := by
  rw [execute]
  rw [if_neg (by simp [hsock])]
  rcases hr : readLine st.buffer chunks with ⟨l, buf, rest⟩ | ⟨buf, rest⟩ | buf
  · rcases hp : parse l with _ | j
    · simp [hp, ExecOutcome.sent]
    · rcases hi : interpret j with _ | e
      · simp [hp, hi, ExecOutcome.sent]
      · rcases e with e | r <;> simp [hp, hi, ExecOutcome.sent]
  · simp [ExecOutcome.sent]
  · simp [ExecOutcome.sent]

/-- Witness for C2's amended theorem: the second manual-merge command is sent
verbatim on a connected client. -/
theorem execute_always_sends_when_connected_witness :
    (execute mergeParse ⟨true, []⟩ manualMergeB [[10]]).sent = [manualMergeB ++ [10]] :=
  execute_always_sends_when_connected mergeParse ⟨true, []⟩ manualMergeB [[10]] rfl

/-- C5: when the transport yields a zero-length chunk before a complete
newline-terminated line is present, `execute` fails with the
connection-closed `CommitDBError` (never returning a response), while a
complete line that fails JSON parsing fails with the invalid-response
`CommitDBError`; the two failures are distinct. -/
theorem closed_before_line_is_connection_closed
    (parse : List Nat → Option Json) (st : ClientState) (query buf l : List Nat)
    (chunks rest cs : List (List Nat)) (hsock : st.socket = true) :
    (readLine st.buffer chunks = .closed buf rest →
      execute parse st query chunks =
        .err .connectionClosed { st with buffer := buf } rest [query ++ [10]]) ∧
    (readLine st.buffer chunks = .line l buf cs → parse l = none →
      execute parse st query chunks =
        .err .invalidResponse { st with buffer := buf } cs [query ++ [10]]) ∧
    ClientError.connectionClosed ≠ ClientError.invalidResponse := by
  refine ⟨?_, ?_, by intro h; cases h⟩
  · intro h
    rw [execute]
    simp [hsock, h]
  · intro h hp
    rw [execute]
    simp [hsock, h, hp]

/-- Witness for C5: the peer sends `"h"` and then closes (empty chunk); the
call fails with the connection-closed error, keeping the partial byte
buffered. -/
theorem closed_before_line_is_connection_closed_witness :
    execute (fun _ => none) ⟨true, []⟩ [113] [[104], []] =
      .err .connectionClosed ⟨true, [104]⟩ [] [[113] ++ [10]] :=
  (closed_before_line_is_connection_closed (fun _ => none) ⟨true, []⟩ [113] [104] []
    [[104], []] [] [] rfl).1 (by decide)

/-- C10: `close` clears only the socket handle and leaves the read buffer
intact, and `connect` does not clear it either; so after close-then-connect
the stale buffered bytes survive, and the first `execute` on the new
connection takes its entire response line from those stale bytes — consuming
no chunk from the new socket — leaving the post-newline stale remainder
buffered. -/
theorem stale_buffer_survives_reconnect
    (parse : List Nat → Option Json) (st st₂ : ClientState) (query : List Nat)
    (chunks : List (List Nat)) (j : Json) (res : ExecResult)
    (hconn : connect (close st) = .ok st₂)
    (hstale : 10 ∈ st.buffer)
    (hparse : parse (st.buffer.takeWhile (fun b => b != 10)) = some j)
    (hint : interpret j = some (.ok res)) :
    (close st).buffer = st.buffer ∧ (close st).socket = false ∧
    st₂.buffer = st.buffer ∧ st₂.socket = true ∧
    execute parse st₂ query chunks =
      .ok res { st₂ with buffer := (st.buffer.dropWhile (fun b => b != 10)).tail }
        chunks [query ++ [10]] := by
  have hst₂ : st₂ = { st with socket := true } := by
    have : (Except.ok { st with socket := true } : Except ClientError ClientState) = .ok st₂ :=
      hconn
    exact (Except.ok.inj this).symm
  subst hst₂
  refine ⟨rfl, rfl, rfl, rfl, ?_⟩
  have hline : readLine st.buffer chunks =
      .line (st.buffer.takeWhile (fun b => b != 10))
        ((st.buffer.dropWhile (fun b => b != 10)).tail) chunks :=
    readLine_found st.buffer chunks hstale
  rw [execute]
  simp [hline, hparse, hint]

/-- Witness for C10: buffer `"h\n" ++ [120]` left from a previous connection
survives `close`/`connect`; the next `execute` answers from the stale line
`"h"`, leaves byte `120` buffered, and consumes no chunk of the new socket. -/
theorem stale_buffer_survives_reconnect_witness :
    (close ⟨true, [104, 10, 120]⟩).buffer = [104, 10, 120] ∧
    (close ⟨true, [104, 10, 120]⟩).socket = false ∧
    (⟨true, [104, 10, 120]⟩ : ClientState).buffer = [104, 10, 120] ∧
    (⟨true, [104, 10, 120]⟩ : ClientState).socket = true ∧
    execute mergeParse ⟨true, [104, 10, 120]⟩ [113] [[99]] =
      .ok (.commit ⟨0, 0, 0, 0, 0, 0, 0⟩) ⟨true, [120]⟩ [[99]] [[113] ++ [10]] :=
  stale_buffer_survives_reconnect mergeParse ⟨true, [104, 10, 120]⟩
    ⟨true, [104, 10, 120]⟩ [113] [[99]]
    (.obj [("success", .bool true), ("type", .str "commit")])
    (.commit ⟨0, 0, 0, 0, 0, 0, 0⟩) rfl (by decide) rfl rfl

/-- Whenever `interpret` produces a `QueryResult`, its `columns` and `data`
are exactly the envelope's decoded `result.columns` and `result.data`: the
payload is copied verbatim, with no validation. -/
theorem interpret_query_payload (j : Json) (q : QueryResult)
    (h : interpret j = some (.ok (.query q))) :
    envQueryPayload j = some (q.columns, q.data) := by
  unfold interpret at h
  split at h
  next fields =>
    split at h
    · exact absurd h (by simp)
    · simp only [] at h
      split at h
      · split at h
        · split at h
          · simp only [Option.some.injEq, Except.ok.injEq, ExecResult.query.injEq] at h
            subst h
            simp [envQueryPayload, *]
          · exact absurd h (by simp)
        · exact absurd h (by simp)
      · split at h
        · split at h
          · split at h
            · exact absurd h (by simp)
            · exact absurd h (by simp)
          · exact absurd h (by simp)
        · exact absurd h (by simp)
  next => exact absurd h (by simp)

/-- C3 (counterexample): `execute` performs no row/column validation — the
successful query envelope with one column but a two-cell row is decoded into
a `QueryResult` whose row length differs from its column count, so the
claimed invariant fails for this envelope. -/
theorem query_rows_unvalidated :
    interpret (.obj [("success", .bool true), ("type", .str "query"),
        ("result", .obj [("columns", .arr [.str "a"]),
          ("data", .arr [.arr [.str "x", .str "y"]])])]) =
      some (.ok (.query ⟨["a"], [["x", "y"]], 0, 0⟩)) ∧
    ¬ (∀ row ∈ (⟨["a"], [["x", "y"]], 0, 0⟩ : QueryResult).data,
        row.length = (⟨["a"], [["x", "y"]], 0, 0⟩ : QueryResult).columns.length) := by
  refine ⟨rfl, ?_⟩
  decide

/-- C3 (amended): for every successful `type == "query"` envelope the
returned `QueryResult` satisfies `len(result) == len(result.data)`, and its
`columns` and `data` are the envelope's payload copied verbatim; hence every
row's length equals the column count exactly when the envelope's own
`result.data` rows already satisfy that — the client adds no validation. -/
theorem query_result_shape (j : Json) (q : QueryResult)
    (h : interpret j = some (.ok (.query q))) :
    q.len = q.data.length ∧
    envQueryPayload j = some (q.columns, q.data) ∧
    (∀ cols data, envQueryPayload j = some (cols, data) →
      (∀ row ∈ data, row.length = cols.length) →
      ∀ row ∈ q.data, row.length = q.columns.length) := by
  have hp := interpret_query_payload j q h
  refine ⟨rfl, hp, ?_⟩
  intro cols data he halign
  rw [hp] at he
  simp only [Option.some.injEq, Prod.mk.injEq] at he
  obtain ⟨hcols, hdata⟩ := he
  subst hcols
  subst hdata
  exact halign

/-- Witness for C3's amended theorem: a one-column, one-row aligned envelope
produces an aligned `QueryResult` of length 1. -/
theorem query_result_shape_witness :
    (⟨["a"], [["x"]], 0, 0⟩ : QueryResult).len = 1 ∧
    envQueryPayload (.obj [("success", .bool true), ("type", .str "query"),
        ("result", .obj [("columns", .arr [.str "a"]),
          ("data", .arr [.arr [.str "x"]])])]) = some (["a"], [["x"]]) ∧
    [["x"]].all (fun row => row.length = 1) := by
  have h := query_result_shape
    (.obj [("success", .bool true), ("type", .str "query"),
      ("result", .obj [("columns", .arr [.str "a"]),
        ("data", .arr [.arr [.str "x"]])])])
    ⟨["a"], [["x"]], 0, 0⟩ rfl
  have ha := h.2.2 ["a"] [["x"]] h.2.1 (by decide)
  exact ⟨h.1, h.2.1, by simp only [List.all_eq_true, decide_eq_true_eq]; exact ha⟩

end CommitDB
